import Mathlib

/-!
Verification of the Baseline Command Center detection core.

The definitions below are shallow embeddings of the repository's
TypeScript detection core: the regex-driven CSS/JS scanners, the
catalog lookups, the per-status counters, the percentage score and the
threshold gates, as implemented (with small divergences) in
  - src/cli/src/analyzer.ts            (CLI ProjectAnalyzer)
  - src/cli/src/reporter.ts            (CLI runCheck threshold gate)
  - src/plugins/webpack/src/index.ts   (webpack plugin)
  - the vite plugin (closeBundle) and rollup plugin (generateBundle)
  - the VS Code extension: CSSParser/JSParser, BaselineDataProvider,
    BaselineDashboardPanel.getProjectStats, JSDecorator.

Numeric model: all counters are Nat; the JavaScript floating-point
expression `Math.round((b / total) * 100)` is modelled exactly over Q
(the quantities involved are small enough that IEEE doubles compute the
rational value), with `Math.round x = ⌊x + 1/2⌋`.
-/

/-- The three classification states of a feature
(`'baseline' | 'limited' | 'not-baseline'` in the sources). -/
inductive BaselineStatus where
  | baseline
  | limited
  | notBaseline
deriving DecidableEq, Repr

/-- The three per-status counters of a per-file scan result
(`baselineCount` / `limitedCount` / `nonBaselineCount` in
src/cli/src/analyzer.ts FileResult). -/
structure ScanCounts where
  baselineCount : Nat
  limitedCount : Nat
  nonBaselineCount : Nat
deriving DecidableEq, Repr

/-- Pointwise sum of two counter triples; this is the step of the
`totalBaseline += result.baselineCount; ...` accumulation loop in
ProjectAnalyzer.analyze (src/cli/src/analyzer.ts lines 96-113). -/
def addCounts (a r : ScanCounts) : ScanCounts :=
  ⟨a.baselineCount + r.baselineCount,
   a.limitedCount + r.limitedCount,
   a.nonBaselineCount + r.nonBaselineCount⟩

/-- The aggregation fold of ProjectAnalyzer.analyze: starting from zero
totals, each file's counters are added in sequence. -/
def aggregate (rs : List ScanCounts) : ScanCounts :=
  rs.foldl addCounts ⟨0, 0, 0⟩

/-- Model of JavaScript `Math.round`: round half toward positive
infinity, `⌊x + 1/2⌋` (stated via the executable `Rat.floor`). -/
def mathRound (q : ℚ) : ℤ :=
  (q + 1 / 2).floor

/-- The score computation shared verbatim by all five surfaces, e.g.
src/cli/src/analyzer.ts lines 116-119:
`totalFeatures > 0 ? Math.round((totalBaseline / totalFeatures) * 100) : 100`. -/
def scoreOf (b total : Nat) : Nat :=
  if 0 < total then (mathRound ((b : ℚ) / (total : ℚ) * 100)).toNat else 100

/-- The three-argument score function of the spec:
`total = baseline + limited + nonBaseline` feeds `scoreOf`. -/
def score (baseline limited nonBaseline : Nat) : Nat :=
  scoreOf baseline (baseline + limited + nonBaseline)

/-! ### Character classes and primitive matching

The scanners are regex passes; the patterns used by this repository are
simple enough (literals, word alternations with `\b`, `\s+`/`\s*`,
`[\w.]+`, `[^;]+`) that each is embedded directly as a deterministic
matcher over `List Char`, with JavaScript `RegExp.exec` `/g` semantics:
leftmost match, resume scanning at the end of the previous match. -/

/-- JavaScript `\w`: `[A-Za-z0-9_]`. -/
def isWordChar (c : Char) : Bool :=
  c.isAlpha || c.isDigit || c = '_'

/-- JavaScript `\s` (the ASCII part; the sources only scan source code). -/
def isJSSpace (c : Char) : Bool :=
  c = ' ' || c = '\t' || c = '\n' || c = '\r' || c = '\x0b' || c = '\x0c'

/-- Strip a literal from the front of a character list, returning the
remainder on success. -/
def stripLit : List Char → List Char → Option (List Char)
  | [], cs => some cs
  | _ :: _, [] => none
  | p :: ps, c :: cs => if p = c then stripLit ps cs else none

/-- `\b` on the left of a word character: the previous character (if any)
is not a word character. -/
def boundaryBefore : Option Char → Bool
  | none => true
  | some c => !isWordChar c

/-- `\b` on the right: the next character (if any) is not a word character. -/
def boundaryAfter : List Char → Bool
  | [] => true
  | c :: _ => !isWordChar c

/-- A matcher receives the character preceding the current position (for
`\b`) and the remaining text, and returns the API name the source would
extract from the match (`match[1] || match[0]`) together with the length
of `match[0]`. -/
def Matcher : Type :=
  Option Char → List Char → Option (String × Nat)

/-- A `\b(w1|w2|...)\b` pass: alternatives are tried in the order they
appear in the source regex; the captured group is the alternative itself. -/
def matchWordAlt (alts : List (List Char)) : Matcher :=
  fun prev cs =>
    if boundaryBefore prev then
      alts.findSome? fun w =>
        match stripLit w cs with
        | some rest => if boundaryAfter rest then some (⟨w⟩, w.length) else none
        | none => none
    else none

/-- The constructor pass `new\s+([\w.]+)\s*\(` of JSParser.extractAPIUsage
(src/src/utils/parser.ts line 85); the capture is the `[\w.]+` group. -/
def matchCtor : Matcher :=
  fun _ cs =>
    match stripLit "new".data cs with
    | none => none
    | some r1 =>
      let sp := r1.takeWhile isJSSpace
      if sp.length = 0 then none
      else
        let r2 := r1.drop sp.length
        let name := r2.takeWhile fun c => isWordChar c || c = '.'
        if name.length = 0 then none
        else
          let r3 := r2.drop name.length
          let sp2 := r3.takeWhile isJSSpace
          match r3.drop sp2.length with
          | '(' :: _ =>
            some (⟨name⟩, 3 + sp.length + name.length + sp2.length + 1)
          | _ => none

/-- The `\basync\s+function` pass; there is no capture group, so the
extracted name is the whole matched text `match[0]`. -/
def matchAsyncFunction : Matcher :=
  fun prev cs =>
    if boundaryBefore prev then
      match stripLit "async".data cs with
      | none => none
      | some r1 =>
        let sp := r1.takeWhile isJSSpace
        if sp.length = 0 then none
        else
          match stripLit "function".data (r1.drop sp.length) with
          | none => none
          | some _ => some (⟨"async".data ++ sp ++ "function".data⟩, 13 + sp.length)
    else none

/-- The `\bawait\s+` pass; no capture group, the extracted name is
`match[0]` (`await` plus the trailing whitespace run). -/
def matchAwait : Matcher :=
  fun prev cs =>
    if boundaryBefore prev then
      match stripLit "await".data cs with
      | none => none
      | some r1 =>
        let sp := r1.takeWhile isJSSpace
        if sp.length = 0 then none else some (⟨"await".data ++ sp⟩, 5 + sp.length)
    else none

/-- A `pre(a1|a2|...)` pass such as `navigator\.(share|...)` or
`document\.(startViewTransition|...)`: no word boundaries anywhere, and
the capture group — hence the extracted name — is only the alternative
after the dot, not the full dotted path. -/
def matchDotted (pre : List Char) (alts : List (List Char)) : Matcher :=
  fun _ cs =>
    match stripLit pre cs with
    | none => none
    | some r1 =>
      alts.findSome? fun a =>
        match stripLit a r1 with
        | some _ => some (⟨a⟩, pre.length + a.length)
        | none => none

/-- The CSS declaration pass `([\w-]+)\s*:\s*([^;]+);` shared by
CSSParser.extractCSSProperties, ProjectAnalyzer.analyzeCSSFile and the
three build plugins; the extracted name is the property (group 1).
`[^;]+` cannot cross a `;`, so the value is everything up to the next
semicolon (the `\s*` after the colon is absorbed into it). -/
def matchCSSDecl : Matcher :=
  fun _ cs =>
    let name := cs.takeWhile fun c => isWordChar c || c = '-'
    if name.length = 0 then none
    else
      let r1 := cs.drop name.length
      let sp := r1.takeWhile isJSSpace
      match r1.drop sp.length with
      | ':' :: r3 =>
        let v := r3.takeWhile (· ≠ ';')
        if v.length = 0 then none
        else
          match r3.drop v.length with
          | ';' :: _ => some (⟨name⟩, name.length + sp.length + 1 + v.length + 1)
          | _ => none
      | _ => none

/-- Run one regex pass over the text with `/g` semantics: at each
position try the matcher; on a match emit `(start, name)` and resume
after the match, remembering the last consumed character for `\b`.
The fuel is initialized to the text length, which every step strictly
decreases below, so it is never exhausted. -/
def scanFuel (m : Matcher) : Nat → Option Char → List Char → Nat → List (Nat × String)
  | 0, _, _, _ => []
  | _ + 1, _, [], _ => []
  | fuel + 1, prev, c :: rest, pos =>
    match m prev (c :: rest) with
    | some (name, len) =>
      if 1 ≤ len then
        (pos, name) ::
          scanFuel m fuel (((c :: rest).take len).getLast?) ((c :: rest).drop len) (pos + len)
      else (pos, name) :: scanFuel m fuel (some c) rest (pos + 1)
    | none => scanFuel m fuel (some c) rest (pos + 1)

/-- All matches of one pass over a text, as (character offset, name). -/
def scanAll (m : Matcher) (text : String) : List (Nat × String) :=
  scanFuel m text.data.length none text.data 0

/-- `document.positionAt(offset).line`: the number of newline characters
before the offset. -/
def lineOf (text : String) (pos : Nat) : Nat :=
  ((text.data.take pos).filter (· = '\n')).length

/-- Substring containment, the model of JavaScript `String.includes`. -/
def isInfixL (sub : List Char) : List Char → Bool
  | [] => sub.isEmpty
  | c :: rest => sub.isPrefixOf (c :: rest) || isInfixL sub rest

/-- `apiName.replace(/^new\s+/, '')` from JSParser.cleanAPIName. -/
def stripLeadingNew (cs : List Char) : List Char :=
  match stripLit "new".data cs with
  | none => cs
  | some r1 =>
    let sp := r1.takeWhile isJSSpace
    if sp.length = 0 then cs else r1.drop sp.length

/-- JavaScript `String.trim`. -/
def trimL (cs : List Char) : List Char :=
  ((cs.dropWhile isJSSpace).reverse.dropWhile isJSSpace).reverse

/-- JSParser.cleanAPIName (src/src/utils/parser.ts lines 153-171); the
source's second parameter `type` is never read, so it is omitted here. -/
def cleanAPIName (apiName : String) : String :=
  let a := stripLeadingNew apiName.data
  if a = "async function".data || isInfixL "async".data a then "async"
  else if isInfixL "await".data a then "async"
  else if "navigator.".data.isPrefixOf a || "document.".data.isPrefixOf a then ⟨a⟩
  else ⟨trimL a⟩

/-- A JS API usage as emitted by JSParser: the cleaned identifier and the
0-based line (range and context are not modelled — no claim reads them). -/
structure JSAPIUsage where
  api : String
  line : Nat
deriving DecidableEq, Repr

/-- The dedup filter of JSParser.deduplicateUsages: keep a usage only if
its `line:api` key has not been seen yet. -/
def dedupAux (seen : List (Nat × String)) : List JSAPIUsage → List JSAPIUsage
  | [] => []
  | u :: rest =>
    if (u.line, u.api) ∈ seen then dedupAux seen rest
    else u :: dedupAux ((u.line, u.api) :: seen) rest

/-- JSParser.deduplicateUsages (src/src/utils/parser.ts lines 176-186). -/
def deduplicateUsages (us : List JSAPIUsage) : List JSAPIUsage :=
  dedupAux [] us

/-- One pass of JSParser.extractAPIUsage: run the regex, clean every
extracted name, attach the line of the match start. -/
def usagesOf (m : Matcher) (text : String) : List JSAPIUsage :=
  (scanAll m text).map fun pn => ⟨cleanAPIName pn.2, lineOf text pn.1⟩

/-- JSParser.extractAPIUsage (src/src/utils/parser.ts lines 79-148): the
twelve passes in source order, concatenated, then deduplicated per
(line, identifier). -/
def extractAPIUsage (text : String) : List JSAPIUsage :=
  deduplicateUsages
    (usagesOf matchCtor text ++
     usagesOf (matchWordAlt
       ["fetch".data, "localStorage".data, "sessionStorage".data,
        "crypto".data, "navigator".data]) text ++
     usagesOf (matchWordAlt
       ["IntersectionObserver".data, "ResizeObserver".data,
        "MutationObserver".data, "PerformanceObserver".data]) text ++
     usagesOf matchAsyncFunction text ++
     usagesOf matchAwait text ++
     usagesOf (matchWordAlt ["Promise".data]) text ++
     usagesOf (matchWordAlt
       ["WeakMap".data, "WeakSet".data, "Map".data, "Set".data]) text ++
     usagesOf (matchWordAlt ["Proxy".data, "Reflect".data]) text ++
     usagesOf (matchWordAlt
       ["querySelector".data, "querySelectorAll".data,
        "getElementById".data]) text ++
     usagesOf (matchWordAlt
       ["BroadcastChannel".data, "WebSocket".data, "Worker".data,
        "ServiceWorker".data]) text ++
     usagesOf (matchDotted "navigator.".data
       ["share".data, "geolocation".data, "mediaDevices".data,
        "serviceWorker".data]) text ++
     usagesOf (matchDotted "document.".data
       ["startViewTransition".data, "requestStorageAccess".data]) text)

/-- The CSS property names matched in a text, in order — the `match[1]`
stream of the shared CSS declaration regex. -/
def cssScanProps (text : String) : List String :=
  (scanAll matchCSSDecl text).map (·.2)

/-! ### Catalogs

Each surface carries its own static table; lookups are exact-string.
Only the status field is modelled — it is the only field the counting
code reads. -/

/-- The CSS table of the CLI ProjectAnalyzer (src/cli/src/analyzer.ts
lines 47-64). -/
def cliCssCatalog (p : String) : Option BaselineStatus :=
  List.lookup p
    [("display", .baseline), ("flex", .baseline), ("flex-direction", .baseline),
     ("flex-wrap", .baseline), ("justify-content", .baseline),
     ("align-items", .baseline), ("gap", .baseline), ("grid", .baseline),
     ("grid-template-columns", .baseline), ("grid-template-rows", .baseline),
     ("position", .baseline), ("backdrop-filter", .baseline),
     ("transform", .baseline), ("container-type", .limited),
     ("container-name", .limited), ("container", .limited)]

/-- The JS table of the CLI ProjectAnalyzer (src/cli/src/analyzer.ts
lines 65-78). -/
def cliJsCatalog (a : String) : Option BaselineStatus :=
  List.lookup a
    [("fetch", .baseline), ("Promise", .baseline), ("async", .baseline),
     ("await", .baseline), ("IntersectionObserver", .baseline),
     ("ResizeObserver", .baseline), ("MutationObserver", .baseline),
     ("localStorage", .baseline), ("crypto", .baseline),
     ("BroadcastChannel", .baseline), ("navigator.share", .limited),
     ("document.startViewTransition", .limited)]

/-- BaselineDataProvider.getCSSFeature after createMockData: every
property of every mock CSS feature is indexed (Map.set, last write
wins; all keys here are distinct). -/
def dashGetCSSFeature (p : String) : Option BaselineStatus :=
  List.lookup p
    [("display", .baseline), ("gap", .baseline), ("row-gap", .baseline),
     ("column-gap", .baseline), ("flex", .baseline),
     ("flex-direction", .baseline), ("flex-wrap", .baseline),
     ("justify-content", .baseline), ("align-items", .baseline),
     ("align-content", .baseline), ("flex-grow", .baseline),
     ("flex-shrink", .baseline), ("flex-basis", .baseline),
     ("grid", .baseline), ("grid-template-columns", .baseline),
     ("grid-template-rows", .baseline), ("grid-area", .baseline),
     ("grid-column", .baseline), ("grid-row", .baseline),
     ("position", .baseline), ("container-type", .limited),
     ("container-name", .limited), ("container", .limited),
     ("backdrop-filter", .baseline), ("color", .limited)]

/-- BaselineDataProvider.getJSFeature after createMockData: each mock JS
feature is indexed under its api name and under each of its method
names (Map.set overwrites; the overlapping method keys `observe`,
`unobserve`, `disconnect` all belong to baseline features, so last write
wins does not change any status). -/
def dashGetJSFeature (a : String) : Option BaselineStatus :=
  List.lookup a
    [("fetch", .baseline), ("Response", .baseline), ("Request", .baseline),
     ("Headers", .baseline), ("Promise", .baseline), ("then", .baseline),
     ("catch", .baseline), ("finally", .baseline), ("all", .baseline),
     ("race", .baseline), ("async", .baseline), ("await", .baseline),
     ("IntersectionObserver", .baseline), ("observe", .baseline),
     ("unobserve", .baseline), ("disconnect", .baseline),
     ("ResizeObserver", .baseline), ("MutationObserver", .baseline),
     ("takeRecords", .baseline), ("localStorage", .baseline),
     ("getItem", .baseline), ("setItem", .baseline),
     ("removeItem", .baseline), ("clear", .baseline),
     ("crypto", .baseline), ("subtle", .baseline),
     ("getRandomValues", .baseline), ("BroadcastChannel", .baseline),
     ("postMessage", .baseline), ("close", .baseline),
     ("navigator.share", .limited), ("share", .limited),
     ("canShare", .limited),
     ("document.startViewTransition", .limited),
     ("startViewTransition", .limited)]

/-- The catalog stipulated by the spec's JS scenario:
`fetch`→baseline, `async`→baseline, `navigator.share`→limited. -/
def scenarioJsCatalog (a : String) : Option BaselineStatus :=
  List.lookup a
    [("fetch", .baseline), ("async", .baseline), ("navigator.share", .limited)]

/-! ### Classification counters -/

/-- One step of the counting loop shared by every surface:
`if (status) { if (status === 'baseline') baselineCount++;
else if (status === 'limited') limitedCount++; else nonBaselineCount++; }`. -/
def countStep (lookup : String → Option BaselineStatus) (acc : ScanCounts) (a : String) :
    ScanCounts :=
  match lookup a with
  | some .baseline => { acc with baselineCount := acc.baselineCount + 1 }
  | some .limited => { acc with limitedCount := acc.limitedCount + 1 }
  | some .notBaseline => { acc with nonBaselineCount := acc.nonBaselineCount + 1 }
  | none => acc

/-- The counting loop folded over a stream of identifiers. -/
def countsOf (lookup : String → Option BaselineStatus) (ids : List String) : ScanCounts :=
  ids.foldl (countStep lookup) ⟨0, 0, 0⟩

/-- The single-identifier contribution to the counters. -/
def unitCounts (s : Option BaselineStatus) : ScanCounts :=
  match s with
  | some .baseline => ⟨1, 0, 0⟩
  | some .limited => ⟨0, 1, 0⟩
  | some .notBaseline => ⟨0, 0, 1⟩
  | none => ⟨0, 0, 0⟩

/-- Recursive counterpart of `countsOf` (see `countsOf_eq_spec`). -/
def specCounts (lookup : String → Option BaselineStatus) : List String → ScanCounts
  | [] => ⟨0, 0, 0⟩
  | a :: rest => addCounts (unitCounts (lookup a)) (specCounts lookup rest)

/-- Recursive counterpart of `aggregate` (see `aggregate_eq_sum`). -/
def sumCounts : List ScanCounts → ScanCounts
  | [] => ⟨0, 0, 0⟩
  | c :: rest => addCounts c (sumCounts rest)

/-! ### The CLI analyzer (src/cli/src/analyzer.ts) -/

/-- ProjectAnalyzer.analyzeCSSFile (lines 149-183): run the CSS regex,
count by catalog status; unknown properties are skipped entirely. -/
def cliAnalyzeCSSCounts (text : String) : ScanCounts :=
  countsOf cliCssCatalog (cssScanProps text)

/-- The identifier stream of ProjectAnalyzer.analyzeJSFile (lines
185-216): seven passes, `const api = match[1] || 'async'` — so the two
capture-free passes contribute the literal `async`, and the
navigator/document passes contribute only the captured suffix.
There is no per-line deduplication in the CLI analyzer. -/
def cliJSApis (text : String) : List String :=
  (scanAll (matchWordAlt ["fetch".data, "localStorage".data, "crypto".data]) text).map (·.2) ++
  (scanAll (matchWordAlt
    ["IntersectionObserver".data, "ResizeObserver".data,
     "MutationObserver".data]) text).map (·.2) ++
  (scanAll (matchWordAlt ["Promise".data]) text).map (·.2) ++
  (scanAll matchAsyncFunction text).map (fun _ => "async") ++
  (scanAll matchAwait text).map (fun _ => "async") ++
  (scanAll (matchDotted "navigator.".data ["share".data]) text).map (·.2) ++
  (scanAll (matchDotted "document.".data ["startViewTransition".data]) text).map (·.2)

/-- ProjectAnalyzer.analyzeJSFile counters. -/
def cliAnalyzeJSCounts (text : String) : ScanCounts :=
  countsOf cliJsCatalog (cliJSApis text)

/-- ProjectAnalyzer.analyze (lines 85-137): fold the per-file counters
into running totals (CSS files first, then JS files). -/
def cliAnalyze (cssTexts jsTexts : List String) : ScanCounts :=
  aggregate (cssTexts.map cliAnalyzeCSSCounts ++ jsTexts.map cliAnalyzeJSCounts)

/-- The project score of ProjectAnalyzer.analyze (lines 116-119). -/
def cliAnalyzeScore (cssTexts jsTexts : List String) : Nat :=
  let t := cliAnalyze cssTexts jsTexts
  scoreOf t.baselineCount (t.baselineCount + t.limitedCount + t.nonBaselineCount)

/-! ### Gate evaluators -/

/-- The outcome a caller can observe from a threshold gate. -/
inductive GateOutcome where
  | pass
  | warn
  | fail
deriving DecidableEq, Repr

/-- BaselineWebpackPlugin.checkThresholds (src/plugins/webpack/src/index.ts
lines 222-232): `failOnNonBaseline && nonBaselineCount > 0`, otherwise
`threshold && score < threshold` (JS truthiness: a zero threshold
disables the check). -/
def checkThresholds (failOnNonBaseline : Bool) (threshold score nonBaselineCount : Nat) : Bool :=
  if failOnNonBaseline = true ∧ 0 < nonBaselineCount then true
  else if threshold ≠ 0 ∧ score < threshold then true
  else false

/-- The webpack plugin's observable outcome: when checkThresholds
returns true a WebpackError is pushed into compilation.errors (a build
failure); otherwise the build proceeds. The webpack plugin never warns. -/
def webpackGate (failOnNonBaseline : Bool) (threshold score nonBaselineCount : Nat) : GateOutcome :=
  if checkThresholds failOnNonBaseline threshold score nonBaselineCount then .fail else .pass

/-- The gate shared verbatim by the vite plugin's closeBundle and the
rollup plugin's generateBundle: below a (truthy) threshold it throws when
`failOnNonBaseline` is set and only warns otherwise; afterwards it throws
when `failOnNonBaseline` is set and any non-baseline feature was found. -/
def bundleGate (failOnNonBaseline : Bool) (threshold score nonBaseline : Nat) : GateOutcome :=
  if threshold ≠ 0 ∧ score < threshold ∧ failOnNonBaseline = true then .fail
  else if failOnNonBaseline = true ∧ 0 < nonBaseline then .fail
  else if threshold ≠ 0 ∧ score < threshold then .warn
  else .pass

/-- The CLI runCheck gate (src/cli/src/reporter.ts lines 252-271): below
the threshold it prints a warning and exits 1 only with
`--fail-on-non-baseline`; then exits 1 if that flag is set and any
non-baseline feature was found. -/
def cliGate (failOnNonBaseline : Bool) (threshold score nonBaseline : Nat) : GateOutcome :=
  if score < threshold ∧ failOnNonBaseline = true then .fail
  else if failOnNonBaseline = true ∧ 0 < nonBaseline then .fail
  else if score < threshold then .warn
  else .pass

/-! ### The dashboard (BaselineDashboardPanel.getProjectStats) -/

/-- The dashboard's per-file JS counting loop: usages are walked in
scanner order, a line number is consumed by the first usage that
carries it (whether or not that usage is in the catalog), and only
catalog-known first-usages increment a counter. -/
def dashJSAux (seen : List Nat) (cnt : ScanCounts) : List JSAPIUsage → ScanCounts
  | [] => cnt
  | u :: rest =>
    if u.line ∈ seen then dashJSAux seen cnt rest
    else
      match dashGetJSFeature u.api with
      | some .baseline =>
        dashJSAux (u.line :: seen) { cnt with baselineCount := cnt.baselineCount + 1 } rest
      | some .limited =>
        dashJSAux (u.line :: seen) { cnt with limitedCount := cnt.limitedCount + 1 } rest
      | some .notBaseline =>
        dashJSAux (u.line :: seen) { cnt with nonBaselineCount := cnt.nonBaselineCount + 1 } rest
      | none => dashJSAux (u.line :: seen) cnt rest

/-- The dashboard's JS counters for one file. -/
def dashboardJSCounts (text : String) : ScanCounts :=
  dashJSAux [] ⟨0, 0, 0⟩ (extractAPIUsage text)

/-- Keep the first usage of every line, dropping later usages on the
same line (the effective filter realized by `dashJSAux`). -/
def firstPerLineAux (seen : List Nat) : List JSAPIUsage → List JSAPIUsage
  | [] => []
  | u :: rest =>
    if u.line ∈ seen then firstPerLineAux seen rest
    else u :: firstPerLineAux (u.line :: seen) rest

/-- BaselineDashboardPanel.getProjectStats (src/unnamed/part_004): CSS
files contribute every scanned declaration to `totalCSSProperties` and
their catalog-known declarations to the CSS counters; JS files
contribute every extracted usage to `totalJSAPIs` and their line-deduped
catalog-known usages to the JS counters; the score divides the baseline
counters by the raw totals. -/
def dashboardScore (cssTexts jsTexts : List String) : Nat :=
  let cssProps := cssTexts.map cssScanProps
  let totalCSSProperties := (cssProps.map List.length).sum
  let cssCnt := aggregate (cssProps.map (countsOf dashGetCSSFeature))
  let apis := jsTexts.map extractAPIUsage
  let totalJSAPIs := (apis.map List.length).sum
  let jsCnt := aggregate (apis.map (dashJSAux [] ⟨0, 0, 0⟩))
  scoreOf (cssCnt.baselineCount + jsCnt.baselineCount) (totalCSSProperties + totalJSAPIs)

/-! ### Concrete inputs named by the claims -/

/-- The JS input of the spec's scenario (C5):
`async function f() { await fetch('/x'); navigator.share({}); }`. -/
def scenarioJSInput : String :=
  "async function f() \x7b await fetch(\x27/x\x27); navigator.share(\x7b\x7d); \x7d"

/-- A one-line JS input whose first scanned usage (`sessionStorage`) is
catalog-absent while the line also contains the catalog-known `fetch`
and `Promise` (C10). -/
def twoKnownOneLineInput : String :=
  "sessionStorage; fetch(x); Promise.resolve()"

theorem mathRound_eq_floor (q : ℚ) : mathRound q = ⌊q + 1 / 2⌋ := by
  show (q + 1 / 2).floor = ⌊q + 1 / 2⌋
  rw [Rat.floor_def', Rat.floor_def]

/-- Executable characterization of the score: for a positive total,
`Math.round((b/total)*100)` equals the Nat division `(200b+total)/(2·total)`. -/
theorem scoreOf_eq_natDiv (b t : Nat) :
    scoreOf b t = if 0 < t then (200 * b + t) / (2 * t) else 100 := by
  unfold scoreOf
  split
  case isTrue h =>
    have ht : (t : ℚ) ≠ 0 := Nat.cast_ne_zero.mpr h.ne'
    have harg : (b : ℚ) / (t : ℚ) * 100 + 1 / 2
        = (((200 * b + t : ℕ) : ℤ) : ℚ) / ((2 * t : ℕ) : ℚ) := by
      push_cast
      field_simp
      ring
    rw [mathRound_eq_floor, harg, Rat.floor_intCast_div_natCast, ← Int.natCast_div]
    exact Int.toNat_natCast _
  case isFalse h => rfl

/-! ### Counter algebra -/

theorem addCounts_zero_left (c : ScanCounts) : addCounts ⟨0, 0, 0⟩ c = c := by
  cases c
  simp [addCounts]

theorem addCounts_zero_right (c : ScanCounts) : addCounts c ⟨0, 0, 0⟩ = c := by
  cases c
  simp [addCounts]

theorem addCounts_assoc (a b c : ScanCounts) :
    addCounts (addCounts a b) c = addCounts a (addCounts b c) := by
  cases a
  cases b
  cases c
  simp [addCounts, Nat.add_assoc]

theorem countStep_eq (lookup : String → Option BaselineStatus) (acc : ScanCounts) (a : String) :
    countStep lookup acc a = addCounts acc (unitCounts (lookup a)) := by
  cases acc
  rcases h : lookup a with _ | s
  · simp [countStep, unitCounts, addCounts, h]
  · cases s <;> simp [countStep, unitCounts, addCounts, h]

theorem foldl_countStep (lookup : String → Option BaselineStatus) (l : List String) :
    ∀ i, l.foldl (countStep lookup) i = addCounts i (specCounts lookup l) := by
  induction l with
  | nil => intro i; simp [specCounts, addCounts_zero_right]
  | cons a rest ih =>
    intro i
    simp only [List.foldl_cons, specCounts]
    rw [ih, countStep_eq, addCounts_assoc]

theorem countsOf_eq_spec (lookup : String → Option BaselineStatus) (l : List String) :
    countsOf lookup l = specCounts lookup l := by
  rw [countsOf, foldl_countStep, addCounts_zero_left]

theorem specCounts_of_none (lookup : String → Option BaselineStatus) (l : List String)
    (h : ∀ a ∈ l, lookup a = none) : specCounts lookup l = ⟨0, 0, 0⟩ := by
  induction l with
  | nil => rfl
  | cons a rest ih =>
    have ha : lookup a = none := h a (List.mem_cons_self a rest)
    rw [specCounts, ha]
    rw [ih fun x hx => h x (List.mem_cons_of_mem a hx)]
    rfl

theorem countsOf_of_none (lookup : String → Option BaselineStatus) (l : List String)
    (h : ∀ a ∈ l, lookup a = none) : countsOf lookup l = ⟨0, 0, 0⟩ := by
  rw [countsOf_eq_spec, specCounts_of_none lookup l h]

theorem foldl_addCounts (l : List ScanCounts) :
    ∀ i, l.foldl addCounts i = addCounts i (sumCounts l) := by
  induction l with
  | nil => intro i; simp [sumCounts, addCounts_zero_right]
  | cons c rest ih =>
    intro i
    simp only [List.foldl_cons, sumCounts]
    rw [ih, addCounts_assoc]

theorem aggregate_eq_sum (l : List ScanCounts) : aggregate l = sumCounts l := by
  rw [aggregate, foldl_addCounts, addCounts_zero_left]

theorem sumCounts_fields (l : List ScanCounts) :
    sumCounts l =
      ⟨(l.map ScanCounts.baselineCount).sum, (l.map ScanCounts.limitedCount).sum,
       (l.map ScanCounts.nonBaselineCount).sum⟩ := by
  induction l with
  | nil => rfl
  | cons c rest ih => simp [sumCounts, addCounts, ih]

/-! ### Deduplication invariants -/

theorem dedupAux_spec (us : List JSAPIUsage) :
    ∀ seen : List (Nat × String),
      ((dedupAux seen us).Pairwise fun u v => (u.line, u.api) ≠ (v.line, v.api)) ∧
        ∀ u ∈ dedupAux seen us, (u.line, u.api) ∉ seen := by
  induction us with
  | nil => intro seen; simp [dedupAux]
  | cons u rest ih =>
    intro seen
    by_cases h : (u.line, u.api) ∈ seen
    · simp only [dedupAux, if_pos h]
      exact ih seen
    · simp only [dedupAux, if_neg h]
      have ihc := ih ((u.line, u.api) :: seen)
      refine ⟨List.Pairwise.cons ?_ ihc.1, ?_⟩
      · intro v hv
        have hnv := ihc.2 v hv
        intro he
        exact hnv (he ▸ List.mem_cons_self _ _)
      · intro v hv
        rcases List.mem_cons.mp hv with rfl | hv'
        · exact h
        · exact fun hs => (ihc.2 v hv') (List.mem_cons_of_mem _ hs)

theorem firstPerLineAux_spec (us : List JSAPIUsage) :
    ∀ seen : List Nat,
      ((firstPerLineAux seen us).Pairwise fun u v => u.line ≠ v.line) ∧
        ∀ u ∈ firstPerLineAux seen us, u.line ∉ seen := by
  induction us with
  | nil => intro seen; simp [firstPerLineAux]
  | cons u rest ih =>
    intro seen
    by_cases h : u.line ∈ seen
    · simp only [firstPerLineAux, if_pos h]
      exact ih seen
    · simp only [firstPerLineAux, if_neg h]
      have ihc := ih (u.line :: seen)
      refine ⟨List.Pairwise.cons ?_ ihc.1, ?_⟩
      · intro v hv
        have hnv := ihc.2 v hv
        intro he
        exact hnv (he ▸ List.mem_cons_self _ _)
      · intro v hv
        rcases List.mem_cons.mp hv with rfl | hv'
        · exact h
        · exact fun hs => (ihc.2 v hv') (List.mem_cons_of_mem _ hs)

/-- Bumping a counter is adding a unit triple. -/
theorem bump_baseline (c : ScanCounts) :
    { c with baselineCount := c.baselineCount + 1 } = addCounts c ⟨1, 0, 0⟩ := by
  cases c
  simp [addCounts]

theorem bump_limited (c : ScanCounts) :
    { c with limitedCount := c.limitedCount + 1 } = addCounts c ⟨0, 1, 0⟩ := by
  cases c
  simp [addCounts]

theorem bump_nonBaseline (c : ScanCounts) :
    { c with nonBaselineCount := c.nonBaselineCount + 1 } = addCounts c ⟨0, 0, 1⟩ := by
  cases c
  simp [addCounts]

/-- The dashboard's JS loop counts exactly the classification of the
first usage kept per line. -/
theorem dashJSAux_eq (us : List JSAPIUsage) :
    ∀ (seen : List Nat) (cnt : ScanCounts),
      dashJSAux seen cnt us =
        addCounts cnt
          (specCounts dashGetJSFeature ((firstPerLineAux seen us).map JSAPIUsage.api)) := by
  induction us with
  | nil =>
    intro seen cnt
    simp [dashJSAux, firstPerLineAux, specCounts, addCounts_zero_right]
  | cons u rest ih =>
    intro seen cnt
    by_cases h : u.line ∈ seen
    · simp only [dashJSAux, firstPerLineAux, if_pos h]
      exact ih seen cnt
    · simp only [dashJSAux, firstPerLineAux, if_neg h, List.map_cons, specCounts]
      rcases hs : dashGetJSFeature u.api with _ | s
      · dsimp only
        rw [ih, unitCounts, addCounts_zero_left]
      · cases s
        · dsimp only
          rw [bump_baseline, ih, addCounts_assoc, unitCounts]
        · dsimp only
          rw [bump_limited, ih, addCounts_assoc, unitCounts]
        · dsimp only
          rw [bump_nonBaseline, ih, addCounts_assoc, unitCounts]

/-! ### Score order lemmas -/

theorem scoreOf_mono {b t b' t' : Nat} (ht : 0 < t) (ht' : 0 < t')
    (h : (b : ℚ) / (t : ℚ) ≤ (b' : ℚ) / (t' : ℚ)) : scoreOf b t ≤ scoreOf b' t' := by
  unfold scoreOf
  rw [if_pos ht, if_pos ht']
  apply Int.toNat_le_toNat
  rw [mathRound_eq_floor, mathRound_eq_floor]
  apply Int.floor_le_floor
  have h100 := mul_le_mul_of_nonneg_right h (by norm_num : (0 : ℚ) ≤ 100)
  linarith

theorem floor_201_half : ⌊(100 : ℚ) + 1 / 2⌋ = 100 := by
  rw [Int.floor_eq_iff]
  norm_num

theorem scoreOf_le_100 {b t : Nat} (hbt : b ≤ t) : scoreOf b t ≤ 100 := by
  unfold scoreOf
  split
  case isTrue ht =>
    have hq : (b : ℚ) / (t : ℚ) ≤ 1 := by
      rw [div_le_one (by exact_mod_cast ht)]
      exact_mod_cast hbt
    have harg : (b : ℚ) / (t : ℚ) * 100 + 1 / 2 ≤ (100 : ℚ) + 1 / 2 := by nlinarith
    have hfl : mathRound ((b : ℚ) / (t : ℚ) * 100) ≤ 100 := by
      rw [mathRound_eq_floor, ← floor_201_half]
      exact Int.floor_le_floor harg
    omega
  case isFalse => exact le_refl 100

theorem scoreOf_self {b : Nat} (h : 0 < b) : scoreOf b b = 100 := by
  unfold scoreOf
  rw [if_pos h]
  have hq : (b : ℚ) / (b : ℚ) = 1 := div_self (by exact_mod_cast h.ne')
  rw [hq, one_mul, mathRound_eq_floor, floor_201_half]
  rfl

theorem scoreOf_zero_num {d : Nat} (h : 0 < d) : scoreOf 0 d = 0 := by
  rw [scoreOf_eq_natDiv, if_pos h]
  rw [show 200 * 0 + d = d by omega]
  exact Nat.div_eq_of_lt (by omega)

theorem score_le_100 (b l n : Nat) : score b l n ≤ 100 := by
  exact scoreOf_le_100 (Nat.le_add_right b l |>.trans (Nat.le_add_right _ n))

/-! ### Gate helper lemmas -/

theorem bundleGate_false_ne_fail (thr s nb : Nat) : bundleGate false thr s nb ≠ .fail := by
  unfold bundleGate
  split
  · next h => simp at h
  · split
    · next h => simp at h
    · split
      · decide
      · decide

theorem cliGate_false_ne_fail (thr s nb : Nat) : cliGate false thr s nb ≠ .fail := by
  unfold cliGate
  split
  · next h => simp at h
  · split
    · next h => simp at h
    · split
      · decide
      · decide

/-! ### Claims -/

/-- Claim C1: for all naturals, the score is 100 when the total is zero
and otherwise the round-half-up of `100 * baseline / total`; in
particular `score 0 0 0 = 100`, `score 0 5 0 = 0`, `score 8 0 2 = 80`. -/
theorem c1_score_formula :
    (∀ b l n : Nat,
      score b l n =
        if b + l + n = 0 then 100
        else (round ((100 * (b : ℚ)) / ((b : ℚ) + (l : ℚ) + (n : ℚ)))).toNat) ∧
    score 0 0 0 = 100 ∧ score 0 5 0 = 0 ∧ score 8 0 2 = 80 := by
  refine ⟨?_, ?_, ?_, ?_⟩
  · intro b l n
    by_cases h : b + l + n = 0
    · rw [if_pos h]
      simp [score, h, scoreOf]
    · rw [if_neg h]
      have hpos : 0 < b + l + n := Nat.pos_of_ne_zero h
      rw [score, scoreOf, if_pos hpos, mathRound_eq_floor, round_eq]
      congr 2
      push_cast
      ring
  · simp [score, scoreOf_eq_natDiv]
  · simp [score, scoreOf_eq_natDiv]
  · simp [score, scoreOf_eq_natDiv]

/-- Claim C9: raising the baseline counter never lowers the score;
raising the limited or non-baseline counter never raises it. -/
theorem c9_score_monotone (b b' l l' n n' : Nat)
    (hb : b ≤ b') (hl : l ≤ l') (hn : n ≤ n') :
    score b l n ≤ score b' l n ∧ score b l' n ≤ score b l n ∧
      score b l n' ≤ score b l n := by
  refine ⟨?_, ?_, ?_⟩
  · rcases Nat.eq_zero_or_pos (b + l + n) with h0 | hpos
    · have hb0 : b = 0 := by omega
      have hl0 : l = 0 := by omega
      have hn0 : n = 0 := by omega
      subst hb0
      subst hl0
      subst hn0
      rcases Nat.eq_zero_or_pos b' with h0' | hpos'
      · subst h0'
        exact le_refl _
      · have hb' : score b' 0 0 = 100 := by
          rw [score, show b' + 0 + 0 = b' by omega]
          exact scoreOf_self hpos'
        rw [hb']
        simp [score, scoreOf]
    · have hpos' : 0 < b' + l + n := by omega
      show scoreOf b (b + l + n) ≤ scoreOf b' (b' + l + n)
      apply scoreOf_mono hpos hpos'
      rw [div_le_div_iff₀ (by exact_mod_cast hpos) (by exact_mod_cast hpos')]
      push_cast
      have hbq : (b : ℚ) ≤ (b' : ℚ) := by exact_mod_cast hb
      have hlq : (0 : ℚ) ≤ (l : ℚ) := Nat.cast_nonneg l
      have hnq : (0 : ℚ) ≤ (n : ℚ) := Nat.cast_nonneg n
      nlinarith [mul_nonneg (sub_nonneg.mpr hbq) (add_nonneg hlq hnq)]
  · rcases Nat.eq_zero_or_pos (b + l + n) with h0 | hpos
    · have hb0 : b = 0 := by omega
      have hn0 : n = 0 := by omega
      subst hb0
      subst hn0
      have h100 : score 0 l 0 = 100 := by
        have : l = 0 := by omega
        subst this
        simp [score, scoreOf]
      rw [h100]
      exact score_le_100 0 l' 0
    · have hpos' : 0 < b + l' + n := by omega
      show scoreOf b (b + l' + n) ≤ scoreOf b (b + l + n)
      apply scoreOf_mono hpos' hpos
      rw [div_le_div_iff₀ (by exact_mod_cast hpos') (by exact_mod_cast hpos)]
      push_cast
      have hlq : (l : ℚ) ≤ (l' : ℚ) := by exact_mod_cast hl
      have hbq : (0 : ℚ) ≤ (b : ℚ) := Nat.cast_nonneg b
      nlinarith [mul_nonneg hbq (sub_nonneg.mpr hlq)]
  · rcases Nat.eq_zero_or_pos (b + l + n) with h0 | hpos
    · have hb0 : b = 0 := by omega
      have hl0 : l = 0 := by omega
      subst hb0
      subst hl0
      have h100 : score 0 0 n = 100 := by
        have : n = 0 := by omega
        subst this
        simp [score, scoreOf]
      rw [h100]
      exact score_le_100 0 0 n'
    · have hpos' : 0 < b + l + n' := by omega
      show scoreOf b (b + l + n') ≤ scoreOf b (b + l + n)
      apply scoreOf_mono hpos' hpos
      rw [div_le_div_iff₀ (by exact_mod_cast hpos') (by exact_mod_cast hpos)]
      push_cast
      have hnq : (n : ℚ) ≤ (n' : ℚ) := by exact_mod_cast hn
      have hbq : (0 : ℚ) ≤ (b : ℚ) := Nat.cast_nonneg b
      nlinarith [mul_nonneg hbq (sub_nonneg.mpr hnq)]

/-- Witness for C9 at baseline 1→2, limited 1→3, nonBaseline 0→2. -/
theorem c9_score_monotone_witness :
    score 1 1 0 ≤ score 2 1 0 ∧ score 1 3 0 ≤ score 1 1 0 ∧
      score 1 1 2 ≤ score 1 1 0 :=
  c9_score_monotone 1 2 1 3 0 2 (by decide) (by decide) (by decide)

/-- Claim C8: aggregation is the pointwise sum of the three counters —
pre-aggregating a prefix changes nothing, and any permutation of the
scan results yields the same aggregate. -/
theorem c8_aggregate_assoc (a b c : ScanCounts) (l1 l2 : List ScanCounts)
    (h : l1.Perm l2) :
    aggregate [a, b, c] = aggregate [aggregate [a, b], c] ∧
      aggregate l1 = aggregate l2 := by
  constructor
  · simp [aggregate, List.foldl, addCounts, Nat.add_assoc]
  · rw [aggregate_eq_sum, aggregate_eq_sum, sumCounts_fields, sumCounts_fields]
    simp only [ScanCounts.mk.injEq]
    exact ⟨(h.map ScanCounts.baselineCount).sum_eq,
           (h.map ScanCounts.limitedCount).sum_eq,
           (h.map ScanCounts.nonBaselineCount).sum_eq⟩

/-- Witness for C8 on concrete counter triples and a concrete swap. -/
theorem c8_aggregate_assoc_witness :
    aggregate [⟨1, 2, 3⟩, ⟨4, 5, 6⟩, ⟨7, 8, 9⟩] =
        aggregate [aggregate [⟨1, 2, 3⟩, ⟨4, 5, 6⟩], ⟨7, 8, 9⟩] ∧
      aggregate [⟨1, 0, 2⟩, ⟨3, 1, 0⟩] = aggregate [⟨3, 1, 0⟩, ⟨1, 0, 2⟩] :=
  c8_aggregate_assoc ⟨1, 2, 3⟩ ⟨4, 5, 6⟩ ⟨7, 8, 9⟩ _ _
    (List.Perm.swap (⟨3, 1, 0⟩ : ScanCounts) (⟨1, 0, 2⟩ : ScanCounts) [])

/-- Claim C3 counterexample: with the strict flag off, a score of 75
against threshold 80 makes the webpack plugin's checkThresholds return
true, which pushes a WebpackError — a build failure, not a warning. -/
theorem c3_counterexample :
    checkThresholds false 80 75 0 = true ∧ webpackGate false 80 75 0 = .fail ∧
      webpackGate false 80 75 0 ≠ .warn := by
  decide

/-- Claim C3 (amended): below a nonzero threshold with the strict flag
off, the vite/rollup and CLI gates warn and continue and can never fail,
but the webpack plugin produces a build failure regardless of the flag. -/
theorem c3_gate_warn_amended (thr s nb : Nat) (h1 : thr ≠ 0) (h2 : s < thr) :
    bundleGate false thr s nb = .warn ∧ cliGate false thr s nb = .warn ∧
      webpackGate false thr s nb = .fail ∧
      (∀ s2 nb2 : Nat,
        bundleGate false thr s2 nb2 ≠ .fail ∧ cliGate false thr s2 nb2 ≠ .fail) := by
  refine ⟨?_, ?_, ?_, ?_⟩
  · simp [bundleGate, h1, h2]
  · simp [cliGate, h2]
  · simp [webpackGate, checkThresholds, h1, h2]
  · intro s2 nb2
    exact ⟨bundleGate_false_ne_fail thr s2 nb2, cliGate_false_ne_fail thr s2 nb2⟩

/-- Witness for the amended C3 at threshold 80, score 75. -/
theorem c3_gate_warn_amended_witness :
    bundleGate false 80 75 0 = .warn ∧ cliGate false 80 75 0 = .warn ∧
      webpackGate false 80 75 0 = .fail ∧
      (∀ s2 nb2 : Nat,
        bundleGate false 80 s2 nb2 ≠ .fail ∧ cliGate false 80 s2 nb2 ≠ .fail) :=
  c3_gate_warn_amended 80 75 0 (by decide) (by decide)

/-- Claim C4: with the strict flag on, any positive non-baseline count
makes every gate fail, whatever the score. -/
theorem c4_strict_nonbaseline_fails (thr s nb : Nat) (h : 0 < nb) :
    webpackGate true thr s nb = .fail ∧ bundleGate true thr s nb = .fail ∧
      cliGate true thr s nb = .fail := by
  refine ⟨?_, ?_, ?_⟩
  · simp [webpackGate, checkThresholds, h]
  · unfold bundleGate
    split
    · rfl
    · rw [if_pos ⟨rfl, h⟩]
  · unfold cliGate
    split
    · rfl
    · rw [if_pos ⟨rfl, h⟩]

/-- Witness for C4: score 95, one non-baseline feature, strict on. -/
theorem c4_strict_nonbaseline_fails_witness :
    webpackGate true 80 95 1 = .fail ∧ bundleGate true 80 95 1 = .fail ∧
      cliGate true 80 95 1 = .fail :=
  c4_strict_nonbaseline_fails 80 95 1 (by decide)

/-- Claim C7: no two usages returned by the JS scanner share both the
same 0-based line and the same normalized identifier. -/
theorem c7_dedup_invariant (text : String) :
    (extractAPIUsage text).Pairwise fun u v => u.line ≠ v.line ∨ u.api ≠ v.api := by
  unfold extractAPIUsage deduplicateUsages
  refine ((dedupAux_spec _ []).1).imp ?_
  intro u v huv
  by_cases hl : u.line = v.line
  · right
    intro ha
    exact huv (by rw [hl, ha])
  · left
    exact hl

/-- Claim C10 (amended): the dashboard's JS counters are exactly the
classification of the first usage the scanner emitted for each line —
at most one increment per line — but a line whose first emitted usage is
catalog-absent contributes nothing even if it contains catalog-known
APIs. -/
theorem c10_dashboard_line_dedup (text : String) :
    dashboardJSCounts text =
      countsOf dashGetJSFeature
        ((firstPerLineAux [] (extractAPIUsage text)).map JSAPIUsage.api) ∧
      (firstPerLineAux [] (extractAPIUsage text)).Pairwise fun u v => u.line ≠ v.line := by
  constructor
  · rw [dashboardJSCounts, dashJSAux_eq, addCounts_zero_left, countsOf_eq_spec]
  · exact (firstPerLineAux_spec _ []).1

/-- Claim C10 counterexample: a line containing the two distinct
catalog-known APIs `fetch` and `Promise` contributes zero classified
usages (not exactly one), because the line's first emitted usage
`sessionStorage` is catalog-absent and consumes the line. -/
theorem c10_counterexample :
    dashboardJSCounts twoKnownOneLineInput = ⟨0, 0, 0⟩ ∧
      JSAPIUsage.mk "fetch" 0 ∈ extractAPIUsage twoKnownOneLineInput ∧
      JSAPIUsage.mk "Promise" 0 ∈ extractAPIUsage twoKnownOneLineInput ∧
      dashGetJSFeature "fetch" = some .baseline ∧
      dashGetJSFeature "Promise" = some .baseline ∧
      ("fetch" : String) ≠ "Promise" := by
  decide

/-- Claim C2 (amended): in the CLI analyzer catalog-absent identifiers
contribute to no counter and no denominator — a project whose scans hit
only catalog-absent identifiers totals zero and scores 100 — but the
dashboard puts every scanned usage in its score denominator, so the same
situation there scores 0 as soon as anything is scanned. -/
theorem c2_unknown_excluded (cssText jsText dtext : String)
    (h1 : ∀ p ∈ cssScanProps cssText, cliCssCatalog p = none)
    (h2 : ∀ a ∈ cliJSApis jsText, cliJsCatalog a = none)
    (h3 : ∀ p ∈ cssScanProps dtext, dashGetCSSFeature p = none)
    (h4 : cssScanProps dtext ≠ []) :
    cliAnalyze [cssText] [jsText] = ⟨0, 0, 0⟩ ∧
      cliAnalyzeScore [cssText] [jsText] = 100 ∧
      dashboardScore [dtext] [] = 0 := by
  have hcss : cliAnalyzeCSSCounts cssText = ⟨0, 0, 0⟩ :=
    countsOf_of_none _ _ h1
  have hjs : cliAnalyzeJSCounts jsText = ⟨0, 0, 0⟩ :=
    countsOf_of_none _ _ h2
  have hagg : cliAnalyze [cssText] [jsText] = ⟨0, 0, 0⟩ := by
    simp [cliAnalyze, aggregate, List.foldl, hcss, hjs, addCounts]
  refine ⟨hagg, ?_, ?_⟩
  · rw [cliAnalyzeScore, hagg]
    simp [scoreOf]
  · rw [dashboardScore]
    simp only [List.map_cons, List.map_nil, List.length_nil, List.sum_cons,
      List.sum_nil, aggregate, List.foldl]
    rw [countsOf_of_none _ _ h3]
    simp only [addCounts, ScanCounts.baselineCount]
    have hlen : 0 < (cssScanProps dtext).length := List.length_pos.mpr h4
    rw [show (0 : Nat) + 0 + (0 + 0) = 0 by omega]
    have : (cssScanProps dtext).length + 0 + 0 = (cssScanProps dtext).length := by omega
    rw [this]
    exact scoreOf_zero_num hlen

/-- Witness for the amended C2: a CSS file with only `unknown-prop` and
a JS file matching no pattern. -/
theorem c2_unknown_excluded_witness :
    cliAnalyze ["unknown-prop: 1;"] ["plainCode(x);"] = ⟨0, 0, 0⟩ ∧
      cliAnalyzeScore ["unknown-prop: 1;"] ["plainCode(x);"] = 100 ∧
      dashboardScore ["unknown-prop: 1;"] [] = 0 :=
  c2_unknown_excluded _ _ _ (by decide) (by decide) (by decide) (by decide)

/-- Claim C2 counterexample: the dashboard scores 0, not 100, on a CSS
file whose only scanned property is catalog-absent. -/
theorem c2_counterexample :
    (∀ p ∈ cssScanProps "unknown-prop: 1;", dashGetCSSFeature p = none) ∧
      dashboardScore ["unknown-prop: 1;"] [] = 0 ∧
      dashboardScore ["unknown-prop: 1;"] [] ≠ 100 := by
  have hs : dashboardScore ["unknown-prop: 1;"] [] = scoreOf 0 1 := by rfl
  have h0 : scoreOf 0 1 = 0 := scoreOf_zero_num (by decide)
  refine ⟨by decide, ?_, ?_⟩
  · rw [hs, h0]
  · rw [hs, h0]
    decide

/-- Claim C5 evaluation at the spec's scenario input: after per-line
dedup the scanner emits `fetch`, `navigator`, `async`, `share` — the
`navigator.share` match surfaces only as `share`, which the stipulated
catalog does not contain — so classification yields baseline=2,
limited=0 (score 100), and the CLI analyzer (no dedup, `await` and
`async function` both counted) yields baseline=3 (score 100); the
claimed counts (2,1,0) would indeed score 67. -/
theorem c5_scenario_eval :
    countsOf scenarioJsCatalog
        ((extractAPIUsage scenarioJSInput).map JSAPIUsage.api) = ⟨2, 0, 0⟩ ∧
      cliAnalyzeJSCounts scenarioJSInput = ⟨3, 0, 0⟩ ∧
      (extractAPIUsage scenarioJSInput).map JSAPIUsage.api =
        ["fetch", "navigator", "async", "share"] ∧
      scoreOf 2 2 = 100 ∧ scoreOf 3 3 = 100 ∧ score 2 1 0 = 67 := by
  refine ⟨by decide, by decide, by decide, ?_, ?_, ?_⟩
  · rw [scoreOf_eq_natDiv]
    decide
  · rw [scoreOf_eq_natDiv]
    decide
  · simp [score, scoreOf_eq_natDiv]

/-- Claim C6 evaluation: the usage emitted for a `navigator.share` match
carries the identifier `share`, not the full dotted path — even though
cleanAPIName itself would keep a full dotted path intact — while the
`new`-strip, the await/async-function collapse and trimming behave as
claimed. -/
theorem c6_dotted_path_eval :
    extractAPIUsage "navigator.share(data)" = [⟨"navigator", 0⟩, ⟨"share", 0⟩] ∧
      (∀ u ∈ extractAPIUsage "navigator.share(data)", u.api ≠ "navigator.share") ∧
      cleanAPIName "navigator.share" = "navigator.share" ∧
      cleanAPIName "await " = "async" ∧
      cleanAPIName "async function" = "async" ∧
      cleanAPIName "new Map" = "Map" ∧
      cleanAPIName " fetch " = "fetch" := by
  decide
